import Mathlib

/-!
# Verification of the posts CRUD service (node-db1-guided)

Shallow embedding of the repository's routers and data-access layer:

* `src/api/posts/post-model.js` — data-access functions `getById`, `create`,
  `update` over the `posts` table;
* `src/api/posts/post-router.js` — routes with `checkId` / `checkPayload`
  middleware and the terminal error-handling middleware;
* `src/posts/post-router.js` and `src/unnamed/part_001` — the two inline
  router variants that talk to the store directly.

The store (knex + sqlite, configured outside `src/`) is modelled as an
in-memory table with auto-increment ids.  Per the comment block in
`src/api/posts/post-router.js` (lines 145-148), the database is configured to
disallow records missing a `title` or a `contents` value, so the modelled
insert rejects bodies in which either field is absent (NOT NULL constraint).

JavaScript values are modelled as follows: a possibly-absent string field is
`Option String` (`none` = property absent / undefined), JS string truthiness
is `truthyStr` (the empty string is falsy), a JS `Error` is `JsError` with an
optional `statusCode` and an opaque `stack` string (constructed errors get
`""` as their stack — its contents never matter, only its presence in the
response body), and a promise outcome is `Except JsError α`.
-/

/-- A row of the `posts` table: `id` (store-generated), `title`, `contents`.
Both text columns are NOT NULL, so persisted rows carry plain strings. -/
structure Post where
  id : Nat
  title : String
  contents : String
deriving DecidableEq, Repr

/-- A request body / change-set over the two text columns; `none` means the
property is absent from the JSON object. -/
structure Fields where
  title : Option String
  contents : Option String
deriving DecidableEq, Repr

/-- The `posts` table together with the store's auto-increment counter. -/
structure Table where
  rows : List Post
  nextId : Nat
deriving DecidableEq, Repr

/-- Well-formedness of the store: every existing row id precedes the
auto-increment counter (how sqlite's rowid allocation behaves). -/
def Table.WF (t : Table) : Prop := ∀ p ∈ t.rows, p.id < t.nextId

instance (t : Table) : Decidable t.WF := by
  unfold Table.WF; infer_instance

/-- JS truthiness of a possibly-absent string: absent and `""` are falsy. -/
def truthyStr : Option String → Bool
  | none => false
  | some s => s ≠ ""

/-- A JS `Error` as used by the routers: a `message`, an optional numeric
`statusCode` property, and a `stack` string. -/
structure JsError where
  message : String
  statusCode : Option Nat
  stack : String
deriving DecidableEq, Repr

/-- JSON response bodies the routers produce (shapes taken from the source). -/
inductive RespBody where
  /-- `{ message: ..., stack: ... }` from the error-handling middleware. -/
  | msgStack (message : String) (stack : String)
  /-- `{ message: ... }`. -/
  | message (m : String)
  /-- a bare `Post` object. -/
  | post (p : Post)
  /-- `res.json(x)` where `x` is a possibly-undefined `Post`. -/
  | jsonPost (p : Option Post)
  /-- `{ count: data }` where `data` may be undefined. -/
  | count (c : Option Nat)
  /-- `{ updated: count }`. -/
  | updated (c : Nat)
  /-- the array of generated ids that a knex/sqlite insert resolves to. -/
  | ids (l : List Nat)
  /-- `{ message: ..., error: err }`. -/
  | messageErr (m : String) (err : JsError)
deriving DecidableEq, Repr

/-- An HTTP response: status code plus JSON body. -/
structure Response where
  status : Nat
  body : RespBody
deriving DecidableEq, Repr

/-- Outcome of a middleware: `next ()` (optionally with `req.post` attached)
or `next(err)`. -/
inductive MidOutcome where
  | next (post : Option Post)
  | nextErr (err : JsError)
deriving DecidableEq, Repr

/-! ## The store (modelled)

Modelled from the spec: the knex/sqlite configuration and the migration
defining the `posts` table live outside `src/`; the spec's external
collaborator contract ("each returning a promise/future that resolves to
rows/count or rejects with a store-level error") and the NOT NULL constraint
documented at `src/api/posts/post-router.js:145-148` determine the behaviour
embedded here. -/

/-- The store error a NOT NULL violation rejects with (a raw store error:
no `statusCode` property). -/
def notNullErr : JsError :=
  { message := "NOT NULL constraint failed", statusCode := none, stack := "" }

/-- `db.insert(data).into('posts')`: rejects when `title` or `contents` is
absent (NOT NULL), otherwise appends a row under the next rowid and resolves
to the array of generated ids — here, the generated id. -/
def dbInsert (t : Table) (data : Fields) : Except JsError (Table × Nat) :=
  match data.title, data.contents with
  | some ti, some co =>
      .ok ({ rows := t.rows ++ [{ id := t.nextId, title := ti, contents := co }],
             nextId := t.nextId + 1 }, t.nextId)
  | _, _ => .error notNullErr

/-- Overwrite the columns present in a change-set, keeping the others. -/
def applyChanges (c : Fields) (p : Post) : Post :=
  { p with title := c.title.getD p.title, contents := c.contents.getD p.contents }

/-- `db('posts').where({ id }).update(changes)`: rewrites the matching rows
and resolves to the number of affected rows. -/
def dbUpdate (t : Table) (id : Nat) (c : Fields) : Table × Nat :=
  ({ t with rows := t.rows.map (fun p => if p.id = id then applyChanges c p else p) },
   (t.rows.filter (fun p => p.id == id)).length)

/-! ## Data-access layer — `src/api/posts/post-model.js` -/

/-- `getById(id)` (post-model.js:111-116, `db.first('*').from('posts')
.where({ id })`): the first matching row, or undefined. -/
def getById (t : Table) (id : Nat) : Option Post :=
  t.rows.find? (fun p => p.id == id)

/-- `create(data)` (post-model.js:125-129): insert, destructure the generated
id, then fetch the created row with `getById`. -/
def create (t : Table) (data : Fields) : Except JsError (Table × Option Post) :=
  match dbInsert t data with
  | .ok (t', postId) => .ok (t', getById t' postId)
  | .error e => .error e

/-- `update(id, changes)` (post-model.js:138-146).  The source builds the
promise chain `db('posts').where({ id }).update(changes).then(...).catch(...)`
but never returns it, so the function returns `undefined` whatever the store
does: the caller observes neither the affected-row count (`.ok none` stands
for a promise resolving to undefined) nor a store rejection.  The argument is
the outcome the store's update produced. -/
def PostModel.update (upd : Except JsError Nat) : Except JsError (Option Nat) :=
  match upd with
  | .ok _ => .ok none
  | .error _ => .ok none

/-! ## Middleware — `src/api/posts/post-router.js` -/

/-- The 404 error `checkId` raises for an unmatched id (router lines 128-129). -/
def notFoundErr : JsError := { message := "invalid id", statusCode := some 404, stack := "" }

/-- `checkId` (router lines 120-138), as a function of the outcome of
`Post.getById(id)`: attach the post and proceed, or raise 404 `invalid id`,
or — when the lookup rejects — overwrite the error's `statusCode`/`message`
and forward it. -/
def checkId (lookup : Except JsError (Option Post)) : MidOutcome :=
  match lookup with
  | .ok (some post) => .next (some post)
  | .ok none => .nextErr notFoundErr
  | .error err =>
      .nextErr { err with statusCode := some 500, message := "error retrieving a post" }

/-- The message of the payload-validation error (router line 157). -/
def payloadMsg : String := "body must include \"title\" and \"contents\""

/-- The 400 error `checkPayload` raises (router lines 157-158). -/
def payloadErr : JsError := { message := payloadMsg, statusCode := some 400, stack := "" }

/-- `checkPayload` (router lines 154-164): `if (!body.title || !body.contents)`
raise 400, else proceed.  The test is JS truthiness of the two properties. -/
def checkPayload (body : Fields) : MidOutcome :=
  if !truthyStr body.title || !truthyStr body.contents then .nextErr payloadErr
  else .next none

/-- The terminal error-handling middleware (router lines 95-98):
`err.statusCode = err.statusCode ? err.statusCode : 500` (JS truthiness on
numbers: absent and `0` are falsy), then respond with that status and
`{ message, stack }`. -/
def errHandler (err : JsError) : Response :=
  let code := match err.statusCode with
    | some n => if n ≠ 0 then n else 500
    | none => 500
  { status := code, body := .msgStack err.message err.stack }

/-! ## Routes — `src/api/posts/post-router.js` -/

/-- `GET /:id` (router lines 24-30): `checkId`, then
`res.status(200).json(req.post)`; any `next(err)` lands in `errHandler`. -/
def apiGetByIdRoute (lookup : Except JsError (Option Post)) : Response :=
  match checkId lookup with
  | .next att => { status := 200, body := .jsonPost att }
  | .nextErr e => errHandler e

/-- `POST /` (router lines 36-44): `checkPayload`, then
`data = await Post.create(body); res.json(data)` — note `res.json` without
`res.status`, so the success status is the Express default 200; a rejection
is forwarded to `errHandler` by `next(err)`. -/
def apiPostRoute (t : Table) (body : Fields) : Response :=
  match checkPayload body with
  | .nextErr e => errHandler e
  | .next _ =>
      match create t body with
      | .ok (_, post) => { status := 200, body := .jsonPost post }
      | .error e => errHandler e

/-- `PUT /:id` (router lines 50-59): `checkId`, `checkPayload`, then
`data = await Post.update(id, changes); res.json({ count: data })`.  The
`upd` argument is the outcome of the store update that `Post.update` runs
internally (and whose result it fails to return). -/
def apiPutRoute (lookup : Except JsError (Option Post)) (body : Fields)
    (upd : Except JsError Nat) : Response :=
  match checkId lookup with
  | .nextErr e => errHandler e
  | .next _ =>
      match checkPayload body with
      | .nextErr e => errHandler e
      | .next _ =>
          match PostModel.update upd with
          | .ok data => { status := 200, body := .count data }
          | .error e => errHandler e

/-! ## Routes — `src/posts/post-router.js` and `src/unnamed/part_001` -/

/-- `GET /:id` of `src/posts/post-router.js` (lines 55-69): on a found row
200 + the post; on a miss `res.status(400).json({ message: "Post not found" })`
— note the 400; on a store rejection 500. -/
def postsGetByIdRoute (lookup : Except JsError (Option Post)) : Response :=
  match lookup with
  | .ok (some p) => { status := 200, body := .post p }
  | .ok none => { status := 400, body := .message "Post not found" }
  | .error _ => { status := 500, body := .message "sorry, ran into an error" }

/-- `GET /:id` of `src/unnamed/part_001` (lines 81-95): as above, but the
miss is a 404. -/
def unnamedGetByIdRoute (lookup : Except JsError (Option Post)) : Response :=
  match lookup with
  | .ok (some p) => { status := 200, body := .post p }
  | .ok none => { status := 404, body := .message "Post not found" }
  | .error _ => { status := 500, body := .message "sorry, ran into an error" }

/-- `POST /` of `src/unnamed/part_001` (lines 104-116) and of
`src/posts/post-router.js` (lines 78-99), which are identical: no payload
validation — `db.insert(postData).into('posts')` is always attempted; on
success `res.status(201).json(post)` where `post` is the generated-id array;
on rejection `res.status(500).json({ message: 'db problem', error: err })`. -/
def unnamedPostRoute (t : Table) (body : Fields) : Response :=
  match dbInsert t body with
  | .ok (_, postId) => { status := 201, body := .ids [postId] }
  | .error e => { status := 500, body := .messageErr "db problem" e }

/-! ## Concrete fixtures used by witnesses and counterexamples -/

/-- An empty store whose next rowid is 1 (a freshly migrated sqlite table). -/
def t0 : Table := { rows := [], nextId := 1 }

/-- A store holding two posts. -/
def t1 : Table := { rows := [{ id := 1, title := "a", contents := "b" },
                            { id := 2, title := "c", contents := "d" }], nextId := 3 }

/-- A sample stored post. -/
def p0 : Post := { id := 1, title := "a", contents := "b" }

/-- A sample raw store error (no `statusCode` property). -/
def e0 : JsError := { message := "db down", statusCode := none, stack := "tr" }

/-! ## Helper lemmas -/

/-- Looking up the freshly inserted id finds exactly the new row, because all
pre-existing rows have smaller ids. -/
theorem getById_fresh (rows : List Post) (nid : Nat) (p : Post)
    (hWF : ∀ q ∈ rows, q.id < nid) (hp : p.id = nid) :
    getById { rows := rows ++ [p], nextId := nid + 1 } nid = some p := by
  unfold getById
  simp only
  rw [List.find?_append]
  have h1 : rows.find? (fun q => q.id == nid) = none := by
    rw [List.find?_eq_none]
    intro q hq
    simp only [beq_iff_eq]
    exact Nat.ne_of_lt (hWF q hq)
  rw [h1]
  simp [List.find?, hp]

/-- On a well-formed table, `create` with both fields present appends the new
row and returns it. -/
theorem create_ok (t : Table) (b : Fields) (ti co : String)
    (hWF : t.WF) (ht : b.title = some ti) (hc : b.contents = some co) :
    create t b =
      .ok ({ rows := t.rows ++ [{ id := t.nextId, title := ti, contents := co }],
             nextId := t.nextId + 1 },
           some { id := t.nextId, title := ti, contents := co }) := by
  unfold create dbInsert
  rw [ht, hc]
  simp only
  rw [getById_fresh t.rows t.nextId _ hWF rfl]

/-! ## Claims -/

/-- C1 (code_bug evidence): the data-access `update` never returns its promise
chain, so whatever the store's update does — resolve with an affected-row
count of 1, or reject — the caller receives undefined (`.ok none`): the count
is lost and a store failure never reaches the handler boundary; the PUT
handler therefore responds 200 with `{ count: undefined }` in both cases
instead of the affected-row count / the formatted error. -/
theorem update_swallows_count_and_errors :
    PostModel.update (.ok 1) = .ok none ∧
    PostModel.update (.error e0) = .ok none ∧
    apiPutRoute (.ok (some p0)) { title := some "x", contents := some "y" } (.ok 1) =
      { status := 200, body := .count none } ∧
    apiPutRoute (.ok (some p0)) { title := some "x", contents := some "y" } (.error e0) =
      { status := 200, body := .count none } :=
  ⟨rfl, rfl, by decide, by decide⟩

/-- C6: for every payload with both `title` and `contents` present, `create`
returns a Post with the store-generated id and exactly those field values,
and `getById` on the resulting table at that id returns the same Post. -/
theorem create_getById_roundtrip (t : Table) (b : Fields) (ti co : String)
    (hWF : t.WF) (ht : b.title = some ti) (hc : b.contents = some co) :
    ∃ t', create t b = .ok (t', some { id := t.nextId, title := ti, contents := co }) ∧
      getById t' t.nextId = some { id := t.nextId, title := ti, contents := co } := by
  refine ⟨_, create_ok t b ti co hWF ht hc, ?_⟩
  exact getById_fresh t.rows t.nextId _ hWF rfl

/-- Witness for C6 at the empty store and payload `{title: "A", contents: "B"}`. -/
theorem create_getById_roundtrip_witness :
    ∃ t', create t0 { title := some "A", contents := some "B" } =
        .ok (t', some { id := 1, title := "A", contents := "B" }) ∧
      getById t' 1 = some { id := 1, title := "A", contents := "B" } :=
  create_getById_roundtrip t0 _ "A" "B" (by decide) rfl rfl

/-- C7: `checkId` is a three-way case split on the outcome of the lookup: a
found Post is attached to the request and the chain proceeds; a miss raises
the 404 `invalid id` error, and the `GET /:id` handler never runs (the
response is the error handler's, with status 404); a rejected lookup raises
a 500 error with message `error retrieving a post`. -/
theorem checkId_three_way (lookup : Except JsError (Option Post)) :
    (∀ p, lookup = .ok (some p) → checkId lookup = .next (some p)) ∧
    (lookup = .ok none →
      checkId lookup = .nextErr notFoundErr ∧
      notFoundErr.statusCode = some 404 ∧
      apiGetByIdRoute lookup = errHandler notFoundErr ∧
      (apiGetByIdRoute lookup).status = 404) ∧
    (∀ e, lookup = .error e →
      checkId lookup =
        .nextErr { e with statusCode := some 500, message := "error retrieving a post" } ∧
      (apiGetByIdRoute lookup).status = 500) := by
  refine ⟨?_, ?_, ?_⟩ <;> intros <;> subst_vars <;>
    simp [checkId, apiGetByIdRoute, errHandler, notFoundErr]

/-- Witness for C7: the three branches at concrete lookup outcomes. -/
theorem checkId_three_way_witness :
    checkId (.ok (some p0)) = .next (some p0) ∧
    checkId (.ok none) = .nextErr notFoundErr ∧
    checkId (.error e0) =
      .nextErr { e0 with statusCode := some 500, message := "error retrieving a post" } :=
  ⟨(checkId_three_way _).1 p0 rfl, ((checkId_three_way _).2.1 rfl).1,
   ((checkId_three_way _).2.2 e0 rfl).1⟩

/-- C9: the store update is a frame-preserving rewrite: row count is
preserved; at every index the id is unchanged; rows whose id differs from the
target are untouched; on the targeted row, a field absent from the change-set
keeps its prior value and a field present in the change-set takes the
supplied value. -/
theorem dbUpdate_frame (t : Table) (id : Nat) (c : Fields) (i : Nat) (p : Post)
    (h : t.rows[i]? = some p) :
    (dbUpdate t id c).1.rows.length = t.rows.length ∧
    ∃ p', (dbUpdate t id c).1.rows[i]? = some p' ∧
      p'.id = p.id ∧
      (p.id ≠ id → p' = p) ∧
      (p.id = id →
        (c.title = none → p'.title = p.title) ∧
        (c.contents = none → p'.contents = p.contents) ∧
        (∀ s, c.title = some s → p'.title = s) ∧
        (∀ s, c.contents = some s → p'.contents = s)) := by
  refine ⟨by simp [dbUpdate], if p.id = id then applyChanges c p else p, ?_, ?_, ?_, ?_⟩
  · simp [dbUpdate, List.getElem?_map, h]
  · by_cases hid : p.id = id <;> simp [hid, applyChanges]
  · intro hid; simp [hid]
  · intro hid
    refine ⟨?_, ?_, ?_, ?_⟩ <;> intros <;> simp_all [applyChanges]

/-- Witness for C9: updating post 1's title in the two-row store leaves its
contents, its id, and the other row intact. -/
theorem dbUpdate_frame_witness :
    (dbUpdate t1 1 { title := some "x", contents := none }).1.rows.length = t1.rows.length ∧
    ∃ p', (dbUpdate t1 1 { title := some "x", contents := none }).1.rows[0]? = some p' ∧
      p'.id = p0.id ∧
      (p0.id ≠ 1 → p' = p0) ∧
      (p0.id = 1 →
        ((Fields.mk (some "x") none).title = none → p'.title = p0.title) ∧
        ((Fields.mk (some "x") none).contents = none → p'.contents = p0.contents) ∧
        (∀ s, (Fields.mk (some "x") none).title = some s → p'.title = s) ∧
        (∀ s, (Fields.mk (some "x") none).contents = some s → p'.contents = s)) :=
  dbUpdate_frame t1 1 { title := some "x", contents := none } 0 p0 rfl

/-- C10: `checkPayload` tests JS truthiness, not key presence: a body whose
`title` (resp. `contents`) is present but the empty string is rejected with
the same 400 error as a body in which the field is absent, and the POST
handler is never reached — the response is the error handler's. -/
theorem checkPayload_truthiness (b : Fields) :
    (b.title = some "" →
      checkPayload b = .nextErr payloadErr ∧
      checkPayload { title := none, contents := b.contents } = .nextErr payloadErr ∧
      ∀ t, apiPostRoute t b = errHandler payloadErr) ∧
    (b.contents = some "" →
      checkPayload b = .nextErr payloadErr ∧
      checkPayload { title := b.title, contents := none } = .nextErr payloadErr ∧
      ∀ t, apiPostRoute t b = errHandler payloadErr) := by
  constructor <;> intro h <;>
    refine ⟨?_, ?_, ?_⟩ <;> simp [checkPayload, apiPostRoute, truthyStr, h]

/-- Witness for C10 at a body whose title is the empty string. -/
theorem checkPayload_truthiness_witness :
    checkPayload { title := some "", contents := some "x" } = .nextErr payloadErr ∧
    checkPayload { title := none, contents := some "x" } = .nextErr payloadErr ∧
    apiPostRoute t0 { title := some "", contents := some "x" } = errHandler payloadErr :=
  ⟨((checkPayload_truthiness { title := some "", contents := some "x" }).1 rfl).1,
   ((checkPayload_truthiness { title := some "", contents := some "x" }).1 rfl).2.1,
   ((checkPayload_truthiness { title := some "", contents := some "x" }).1 rfl).2.2 t0⟩

/-- C2 (counterexample): id 7 matches no row of the empty store, yet the
`src/posts/post-router.js` variant of `GET /:id` responds 400, not 404. -/
theorem posts_variant_get_absent_is_400 :
    getById t0 7 = none ∧
    postsGetByIdRoute (.ok (getById t0 7)) = { status := 400, body := .message "Post not found" } ∧
    (postsGetByIdRoute (.ok (getById t0 7))).status ≠ 404 := by decide

/-- C2 (amended): for every id with no matching row, `GET /:id` takes the
error path instead of the success handler in all three variants; the api
variant (via `checkId`) and the unnamed variant respond 404 with a message
body, while the `src/posts` variant responds 400 with the message body. -/
theorem get_absent_statuses (t : Table) (id : Nat) (h : getById t id = none) :
    apiGetByIdRoute (.ok (getById t id)) = errHandler notFoundErr ∧
    (apiGetByIdRoute (.ok (getById t id))).status = 404 ∧
    unnamedGetByIdRoute (.ok (getById t id)) =
      { status := 404, body := .message "Post not found" } ∧
    postsGetByIdRoute (.ok (getById t id)) =
      { status := 400, body := .message "Post not found" } := by
  rw [h]
  exact ⟨rfl, rfl, rfl, rfl⟩

/-- Witness for C2's amended statement at the empty store and id 7. -/
theorem get_absent_statuses_witness :
    apiGetByIdRoute (.ok (getById t0 7)) = errHandler notFoundErr ∧
    (apiGetByIdRoute (.ok (getById t0 7))).status = 404 ∧
    unnamedGetByIdRoute (.ok (getById t0 7)) =
      { status := 404, body := .message "Post not found" } ∧
    postsGetByIdRoute (.ok (getById t0 7)) =
      { status := 400, body := .message "Post not found" } :=
  get_absent_statuses t0 7 rfl

/-- C3 (counterexample): a body carrying only `title` is rejected by
`checkPayload` — the very check the PUT route installs — so on
`PUT /:id` with a found post the request is answered by the error handler
with status 400 instead of proceeding to the handler. -/
theorem put_payload_rejects_title_only :
    checkPayload { title := some "t", contents := none } = .nextErr payloadErr ∧
    payloadErr.statusCode = some 400 ∧
    apiPutRoute (.ok (some p0)) { title := some "t", contents := none } (.ok 1) =
      errHandler payloadErr ∧
    (apiPutRoute (.ok (some p0)) { title := some "t", contents := none } (.ok 1)).status = 400 :=
  by decide

/-- C3 (amended): only the strict policy appears in the source: `checkPayload`
— used by both the create and the PUT route — passes exactly when both
`title` and `contents` are truthy, and when they are not, a PUT whose id
lookup succeeded is answered by the error handler with the 400 payload error,
never reaching the handler. -/
theorem checkPayload_requires_both (b : Fields) :
    (checkPayload b = .next none ↔ (truthyStr b.title = true ∧ truthyStr b.contents = true)) ∧
    (¬(truthyStr b.title = true ∧ truthyStr b.contents = true) →
      ∀ p upd, apiPutRoute (.ok (some p)) b upd = errHandler payloadErr) := by
  constructor
  · unfold checkPayload
    by_cases h1 : truthyStr b.title = true <;> by_cases h2 : truthyStr b.contents = true <;>
      simp [h1, h2]
  · intro h p upd
    unfold apiPutRoute checkId checkPayload
    by_cases h1 : truthyStr b.title = true <;> by_cases h2 : truthyStr b.contents = true <;>
      simp_all

/-- Witness for C3's amended statement. -/
theorem checkPayload_requires_both_witness :
    (checkPayload { title := some "t", contents := some "c" } = .next none ↔
      (truthyStr (some "t") = true ∧ truthyStr (some "c") = true)) ∧
    apiPutRoute (.ok (some p0)) { title := some "t", contents := none } (.ok 1) =
      errHandler payloadErr :=
  ⟨(checkPayload_requires_both { title := some "t", contents := some "c" }).1,
   (checkPayload_requires_both { title := some "t", contents := none }).2 (by decide) p0 (.ok 1)⟩

/-- C4 (counterexample): on a body missing both fields, the unnamed/posts
variant of `POST /` does invoke the store — the insert is attempted and its
NOT NULL rejection is answered with 500 `db problem`, not 400. -/
theorem unnamed_post_empty_body_is_500 :
    unnamedPostRoute t0 { title := none, contents := none } =
      { status := 500, body := .messageErr "db problem" notNullErr } ∧
    (unnamedPostRoute t0 { title := none, contents := none }).status ≠ 400 := by decide

/-- C4 (amended): for a body missing both fields, the api variant responds
400 with the payload message and never touches the store (the response is
independent of the store state), while the posts/unnamed variants — which
have no payload validation — pass the body to the store insert and answer
its NOT NULL rejection with 500. -/
theorem post_empty_body_behavior (t t' : Table) (b : Fields)
    (ht : b.title = none) (hc : b.contents = none) :
    apiPostRoute t b = { status := 400, body := .msgStack payloadMsg "" } ∧
    apiPostRoute t b = apiPostRoute t' b ∧
    unnamedPostRoute t b = { status := 500, body := .messageErr "db problem" notNullErr } := by
  refine ⟨?_, ?_, ?_⟩ <;>
    simp [apiPostRoute, unnamedPostRoute, checkPayload, dbInsert, truthyStr, ht, hc,
      errHandler, payloadErr]

/-- Witness for C4's amended statement at the empty body. -/
theorem post_empty_body_behavior_witness :
    apiPostRoute t0 { title := none, contents := none } =
      { status := 400, body := .msgStack payloadMsg "" } ∧
    apiPostRoute t0 { title := none, contents := none } =
      apiPostRoute t1 { title := none, contents := none } ∧
    unnamedPostRoute t0 { title := none, contents := none } =
      { status := 500, body := .messageErr "db problem" notNullErr } :=
  post_empty_body_behavior t0 t1 { title := none, contents := none } rfl rfl

/-- C5 (counterexample): a successful create through the api variant responds
200 — its handler calls `res.json(data)` without `res.status(201)` — so the
claimed 201 fails for that variant. -/
theorem api_post_success_is_200 :
    apiPostRoute t0 { title := some "A", contents := some "B" } =
      { status := 200, body := .jsonPost (some { id := 1, title := "A", contents := "B" }) } ∧
    (apiPostRoute t0 { title := some "A", contents := some "B" }).status ≠ 201 := by decide

/-- C5 (amended): for a payload with both fields present (and truthy, so the
api variant's `checkPayload` passes), the posts/unnamed variants respond 201
with the generated-id array, while the api variant responds 200 (the Express
default) with the created Post as its body. -/
theorem post_success_statuses (t : Table) (b : Fields) (ti co : String)
    (hWF : t.WF) (ht : b.title = some ti) (hc : b.contents = some co)
    (hti : ti ≠ "") (hco : co ≠ "") :
    apiPostRoute t b =
      { status := 200,
        body := .jsonPost (some { id := t.nextId, title := ti, contents := co }) } ∧
    unnamedPostRoute t b = { status := 201, body := .ids [t.nextId] } := by
  constructor
  · have hcr := create_ok t b ti co hWF ht hc
    simp [apiPostRoute, checkPayload, truthyStr, ht, hc, hti, hco, hcr]
  · simp [unnamedPostRoute, dbInsert, ht, hc]

/-- Witness for C5's amended statement at the empty store. -/
theorem post_success_statuses_witness :
    apiPostRoute t0 { title := some "A", contents := some "B" } =
      { status := 200, body := .jsonPost (some { id := 1, title := "A", contents := "B" }) } ∧
    unnamedPostRoute t0 { title := some "A", contents := some "B" } =
      { status := 201, body := .ids [1] } :=
  post_success_statuses t0 { title := some "A", contents := some "B" } "A" "B"
    (by decide) rfl rfl (by decide) (by decide)

/-- C8 (counterexample): an error whose `statusCode` property is set to 0 is
formatted with status 500, not its statusCode — the middleware tests
truthiness (`err.statusCode ? err.statusCode : 500`), not presence. -/
theorem errHandler_zero_statusCode :
    errHandler { message := "boom", statusCode := some 0, stack := "tr" } =
      { status := 500, body := .msgStack "boom" "tr" } ∧ (500 : Nat) ≠ 0 := by decide

/-- C8 (amended): the terminal middleware formats every error as a JSON body
carrying the error's message and stack, with status equal to the error's
`statusCode` when it is set and nonzero (truthy) and 500 when it is absent or
0; and on the api routes embedded here it is the sole producer of the error
path's response: every non-200 response of `GET /:id` and `POST /` is the
error handler's output on some error. -/
theorem errHandler_formats (err : JsError) :
    ((err.statusCode = none ∨ err.statusCode = some 0) →
      errHandler err = { status := 500, body := .msgStack err.message err.stack }) ∧
    (∀ n, err.statusCode = some n → n ≠ 0 →
      errHandler err = { status := n, body := .msgStack err.message err.stack }) ∧
    (∀ lookup, (apiGetByIdRoute lookup).status ≠ 200 →
      ∃ e, apiGetByIdRoute lookup = errHandler e) ∧
    (∀ t b, (apiPostRoute t b).status ≠ 200 → ∃ e, apiPostRoute t b = errHandler e) := by
  refine ⟨?_, ?_, ?_, ?_⟩
  · rintro (h | h) <;> simp [errHandler, h]
  · intro n hn h0
    simp [errHandler, hn, h0]
  · intro lookup h
    match lookup with
    | .ok (some p) => exact absurd rfl h
    | .ok none => exact ⟨notFoundErr, rfl⟩
    | .error e =>
        exact ⟨{ e with statusCode := some 500, message := "error retrieving a post" }, rfl⟩
  · intro t b h
    cases hcp : checkPayload b with
    | nextErr e => exact ⟨e, by simp [apiPostRoute, hcp]⟩
    | next att =>
        cases hcr : create t b with
        | ok r => exact absurd (by simp [apiPostRoute, hcp, hcr]) h
        | error e => exact ⟨e, by simp [apiPostRoute, hcp, hcr]⟩

/-- Witness for C8's amended statement at a 404-coded error and an uncoded
error. -/
theorem errHandler_formats_witness :
    errHandler { message := "m", statusCode := none, stack := "s" } =
      { status := 500, body := .msgStack "m" "s" } ∧
    errHandler { message := "m", statusCode := some 404, stack := "s" } =
      { status := 404, body := .msgStack "m" "s" } :=
  ⟨(errHandler_formats { message := "m", statusCode := none, stack := "s" }).1 (Or.inl rfl),
   (errHandler_formats { message := "m", statusCode := some 404, stack := "s" }).2.1 404 rfl
     (by decide)⟩
